import Mathlib

/-!
Verification development for the `pygame_gui_extras` repository.

The embedding below transcribes, into Lean, the three components the
repository provides:

* `UIImageTiled` (src/pygame_gui_extras/ui_image_tiled.py): a widget that
  tiles a small surface across a target rectangle;
* `ThreePanelApp.__init__` (src/pygame_gui_extras/app/ThreePanelApp.py):
  the three-panel layout height computation and its validation checks;
* `GuiApp` (src/pygame_gui_extras/app/gui_app.py): the application
  scaffold with its event loop, run loop, and the background/ui-manager
  resolution bookkeeping.

Pygame surfaces are modelled as a pixel grid with a width and a height;
pixel values are opaque naturals.  External pygame routines whose pixel
semantics the repository does not define (`convert_alpha`,
`premul_alpha_surface`, `pygame.transform.smoothscale`) are taken as
parameters, constrained only by the size behaviour the claims rely on
(size preservation for the first two, exact target size for the third).
-/

/-- A pygame surface: a width, a height and a pixel grid.  Pixel values
are opaque naturals; coordinates outside the rectangle are irrelevant. -/
structure Surface where
  width : Nat
  height : Nat
  pix : Nat → Nat → Nat

/-- The size of a surface as a pair, as `Surface.get_size` returns it. -/
def Surface.size (s : Surface) : Nat × Nat := (s.width, s.height)

/-- A fresh `pygame.Surface((w, h))`: filled with black (pixel value 0). -/
def Surface.new (w h : Nat) : Surface := ⟨w, h, fun _ _ => 0⟩

/-- Blitting `src` onto `dst` at offset (x, y): source pixels overwrite
destination pixels inside the destination bounds; everything else is
unchanged.  Offsets in the tiling loop are non-negative. -/
def Surface.blit (dst src : Surface) (x y : Nat) : Surface :=
  { dst with
    pix := fun i j =>
      if x ≤ i ∧ i < x + src.width ∧ y ≤ j ∧ j < y + src.height ∧
          i < dst.width ∧ j < dst.height then
        src.pix (i - x) (j - y)
      else dst.pix i j }

/-- Python `range(0, stop, step)` for a positive step: the multiples of
`step` below `stop`, in increasing order. -/
def rangeStep (stop step : Nat) : List Nat :=
  (List.range ((stop + step - 1) / step)).map (· * step)

/-- The blit offsets produced by the nested loops of
`create_tiled_surface`: `y` ranges over `range(0, panel_height, ystep)`
in the outer loop and `x` over `range(0, panel_width, xstep)` in the
inner loop, and the tile is blitted at `(x, y)`. -/
def tileOffsets (panel_width panel_height xstep ystep : Nat) : List (Nat × Nat) :=
  (rangeStep panel_height ystep).flatMap fun y =>
    (rangeStep panel_width xstep).map fun x => (x, y)

/-- Model of `UIImageTiled.create_tiled_surface` for a non-None tile.  The source
assigns `tile_width, tile_height = self._tile.get_height(), self._tile.get_width()`
(ui_image_tiled.py line 66), so the local `tile_width` is the tile's
actual height and `tile_height` its actual width; the transcription keeps
that swap.  If the size test fails, a new surface of the panel size is
allocated and the tile is blitted at each loop offset. -/
def tileSurface (t : Surface) (panel_width panel_height : Nat) : Surface :=
  let tile_width := t.height
  let tile_height := t.width
  if panel_width = tile_width ∧ panel_height = tile_height then t
  else
    (tileOffsets panel_width panel_height tile_width tile_height).foldl
      (fun s p => s.blit t p.1 p.2) (Surface.new panel_width panel_height)

/-- Model of `UIImageTiled.create_tiled_surface`: returns `self._tile` when it is
None, otherwise tiles it across the panel rectangle. -/
def create_tiled_surface (tile : Option Surface) (panel_width panel_height : Nat) :
    Option Surface :=
  match tile with
  | none => none
  | some t => some (tileSurface t panel_width panel_height)

/-- The blit offsets the specification describes: `x` steps by the tile's
actual width and `y` by its actual height, starting at the origin.
Stated from the spec for comparison with the offsets the code uses. -/
def specTileOffsets (t : Surface) (panel_width panel_height : Nat) : List (Nat × Nat) :=
  (rangeStep panel_height t.height).flatMap fun y =>
    (rangeStep panel_width t.width).map fun x => (x, y)

/-- The blit offsets the code actually uses inside `tileSurface`: `x`
steps by `tile_width` which the source set to the tile's height, and `y`
steps by `tile_height` which the source set to the tile's width. -/
def codeTileOffsets (t : Surface) (panel_width panel_height : Nat) : List (Nat × Nat) :=
  tileOffsets panel_width panel_height t.height t.width

/-- A concrete 2 wide by 3 high tile with pairwise distinct pixels,
used as a test input. -/
def tileA : Surface := ⟨2, 3, fun i j => i + 2 * j⟩

/-- The state of a `UIImageTiled` widget: its rectangle size, the stored
tile `self._tile`, `self.original_image`, and the installed `self.image`. -/
structure TiledWidget where
  rectW : Nat
  rectH : Nat
  tile : Option Surface
  original_image : Option Surface
  image : Surface

/-- Model of `UIImageTiled.__init__` after the base-class setup, for a given
(non-None) `image_surface` and rectangle size.  `conv` models
`convert_alpha`, `premul` models `premul_alpha_surface` and `ss` models
`pygame.transform.smoothscale`; the source stores the tile, composes the
tiled surface, premultiplies it, and smooth-rescales it exactly when its
size differs from the widget rectangle, recording the unscaled surface in
`original_image` in that case (otherwise `original_image` stays None). -/
def UIImageTiled.init (conv premul : Surface → Surface)
    (ss : Surface → Nat → Nat → Surface)
    (image_surface : Surface) (rectW rectH : Nat) : TiledWidget :=
  let composed := tileSurface image_surface rectW rectH
  let is2 := premul (conv composed)
  if is2.width ≠ rectW ∨ is2.height ≠ rectH then
    { rectW := rectW, rectH := rectH, tile := some image_surface,
      original_image := some is2, image := ss is2 rectW rectH }
  else
    { rectW := rectW, rectH := rectH, tile := some image_surface,
      original_image := none, image := is2 }

/-- Model of `UIImageTiled.set_dimensions`: the base-class call updates the
rectangle; then, when the new rectangle size differs from the installed
image's size, the tiled surface is recomputed from `self._tile` and
premultiplied, and installed without rescaling (the `smoothscale` call in
the source is commented out).  When `self._tile` is None the source would
fail on `None.convert_alpha()`, modelled as `none`; the subsequent
`if self.original_image is None` fallback in the source is unreachable
for a non-None tile and has no counterpart here. -/
def UIImageTiled.set_dimensions (conv premul : Surface → Surface)
    (w : TiledWidget) (dimW dimH : Nat) : Option TiledWidget :=
  let w1 : TiledWidget := { w with rectW := dimW, rectH := dimH }
  if dimW ≠ w1.image.width ∨ dimH ≠ w1.image.height then
    match create_tiled_surface w1.tile dimW dimH with
    | none => none
    | some s =>
        let oi := premul (conv s)
        some { w1 with original_image := some oi, image := oi }
  else some w1

/-- A concrete stand-in for `pygame.transform.smoothscale` used to
instantiate the abstract scaling parameter on concrete inputs: it
produces a surface of exactly the requested size by nearest sampling. -/
def scaleNearest (s : Surface) (w h : Nat) : Surface :=
  ⟨w, h, fun i j => s.pix (i * s.width / w) (j * s.height / h)⟩

/-- A pygame rectangle with rational coordinates, as the panel rectangles
of `ThreePanelApp` are built (heights may be fractional products). -/
structure PanelRect where
  x : ℚ
  y : ℚ
  w : ℚ
  h : ℚ
deriving DecidableEq

/-- The three panels `ThreePanelApp.__init__` registers, in registration
order: top, bottom, middle. -/
structure ThreePanels where
  top_panel : PanelRect
  bottom_panel : PanelRect
  middle_panel : PanelRect
deriving DecidableEq

/-- Model of `ThreePanelApp.__init__` after the base-class setup.  The two
height-validation checks run first; then the heights are resolved
(multiplied by the window height in fraction mode), the middle height is
checked, and only then are the three panel rectangles built, exactly as
in the source (so an error propagates before any panel is registered). -/
def ThreePanelApp.init (window_width window_height : ℚ)
    (top_height bottom_height : ℚ) (heights_as_fractions : Bool) :
    Except String ThreePanels :=
  if heights_as_fractions = true ∧
      (top_height > 1 ∨ bottom_height > 1 ∨ top_height + bottom_height > 1) then
    Except.error "Panels will not fit. Total is > 100%."
  else if heights_as_fractions = false ∧ top_height + bottom_height > window_height then
    Except.error "Panels will not fit. Total is > window height."
  else if window_height -
      (if heights_as_fractions then window_height * top_height else top_height) -
      (if heights_as_fractions then window_height * bottom_height else bottom_height) ≤ 0 then
    Except.error "Panels will not fit. No room for middle panel."
  else
    Except.ok
      { top_panel := ⟨0, 0, window_width,
          if heights_as_fractions then window_height * top_height else top_height⟩
        bottom_panel := ⟨0,
          -(if heights_as_fractions then window_height * bottom_height else bottom_height),
          window_width,
          if heights_as_fractions then window_height * bottom_height else bottom_height⟩
        middle_panel := ⟨0, 0, window_width,
          window_height -
            ((if heights_as_fractions then window_height * top_height else top_height) +
             (if heights_as_fractions then window_height * bottom_height else bottom_height))⟩ }

/-- True exactly when the constructor raised. -/
def isErr {α : Type} (e : Except String α) : Bool :=
  match e with
  | Except.error _ => true
  | Except.ok _ => false

/-- The events the `GuiApp` main loop distinguishes: `pygame.QUIT`,
`pygame.WINDOWRESIZED` (which pygame delivers after it has already
resized the display surface to the new size), and everything else. -/
inductive GEvent where
  | quit : GEvent
  | windowResized : Nat → Nat → GEvent
  | other : Nat → GEvent
deriving DecidableEq

/-- The `GuiApp` state the claims are about: the running flag, the root
window surface size, the background surface size, the widget manager's
resolution, plus observation traces recording each `on_shutdown` call,
each event passed to the `handle_event` hook, and each event forwarded to
`ui_manager.process_events`. -/
structure GuiState where
  is_running : Bool
  window_size : Nat × Nat
  background_size : Nat × Nat
  ui_resolution : Nat × Nat
  shutdown_calls : Nat
  handled : List GEvent
  forwarded : List GEvent
deriving DecidableEq

/-- Model of `GuiApp.__init__`: opens the window at the given size, creates the
background fill surface at `self.size` and the `UIManager` at
`self.size`, and starts with `is_running = False`. -/
def GuiApp.init (window_size : Nat × Nat) : GuiState :=
  { is_running := false
    window_size := window_size
    background_size := window_size
    ui_resolution := window_size
    shutdown_calls := 0
    handled := []
    forwarded := [] }

/-- The body of the event loop in `GuiApp._main_loop` for one event: a
QUIT event triggers `on_shutdown` and clears `is_running`; a
WINDOWRESIZED event (after pygame has resized the display surface)
recreates the background surface at `self.size` and passes `self.size` to
`set_window_resolution`; any other event goes to the `handle_event` hook.
After that dispatch, the event is forwarded to
`ui_manager.process_events` exactly when `is_running` is still set. -/
def processEvent (s : GuiState) (e : GEvent) : GuiState :=
  let s1 :=
    match e with
    | GEvent.quit =>
        { s with shutdown_calls := s.shutdown_calls + 1, is_running := false }
    | GEvent.windowResized w h =>
        let s0 := { s with window_size := (w, h) }
        { s0 with background_size := s0.window_size, ui_resolution := s0.window_size }
    | GEvent.other _ => { s with handled := s.handled ++ [e] }
  if s1.is_running then { s1 with forwarded := s1.forwarded ++ [e] } else s1

/-- One call of `GuiApp._main_loop` on the batch of pending events: the
loop drains the events in order; the subsequent manager update, data
update, background blit, widget draw and display update touch none of
the modelled fields. -/
def mainLoop (s : GuiState) (events : List GEvent) : GuiState :=
  events.foldl processEvent s

/-- Iteration of `while self.is_running: self._main_loop()` in `GuiApp.run`,
driven by the finite schedule of event batches the environment will
deliver, one batch per iteration. -/
def runFrom (s : GuiState) : List (List GEvent) → GuiState
  | [] => s
  | b :: bs => if s.is_running then runFrom (mainLoop s b) bs else s

/-- Model of `GuiApp.run`: returns at once when `is_running` is already set,
otherwise sets it and iterates the main loop while it stays set. -/
def GuiApp.run (s : GuiState) (batches : List (List GEvent)) : GuiState :=
  if s.is_running then s else runFrom { s with is_running := true } batches

/-- The size invariant of claim C8: the background surface and the widget
manager resolution both match the root window surface size. -/
def GuiApp.sizeInv (s : GuiState) : Prop :=
  s.background_size = s.window_size ∧ s.ui_resolution = s.window_size



/-- Blitting never changes the destination size. -/
lemma Surface.blit_width (dst src : Surface) (x y : Nat) :
    (dst.blit src x y).width = dst.width := rfl

/-- Blitting never changes the destination height. -/
lemma Surface.blit_height (dst src : Surface) (x y : Nat) :
    (dst.blit src x y).height = dst.height := rfl

/-- The replication fold keeps the size of the surface it starts from. -/
lemma foldl_blit_size (t : Surface) (l : List (Nat × Nat)) (s : Surface) :
    (l.foldl (fun a p => a.blit t p.1 p.2) s).width = s.width ∧
    (l.foldl (fun a p => a.blit t p.1 p.2) s).height = s.height := by
  induction l generalizing s with
  | nil => exact ⟨rfl, rfl⟩
  | cons p ps ih => simpa using ih (s.blit t p.1 p.2)

/-- When the panel is strictly larger than the tile in both directions,
the swapped size test cannot hold, so the composed surface has exactly
the panel size. -/
lemma tileSurface_size_of_lt (t : Surface) (W H : Nat)
    (hW : t.width < W) (hH : t.height < H) :
    (tileSurface t W H).width = W ∧ (tileSurface t W H).height = H := by
  unfold tileSurface
  rw [if_neg]
  · simpa using foldl_blit_size t _ (Surface.new W H)
  · rintro ⟨h1, h2⟩
    omega

/-- C1: the claim says that tiling a non-None tile into a target of
exactly the tile's own size returns the tile itself with no replication
pass.  The source swaps the tile's width and height in the size test
(ui_image_tiled.py line 66), so for the non-square 2 by 3 tile `tileA`
and a 2 by 3 target the test fails and a replication pass runs over a
fresh surface: the result is not the tile (its pixel at (0, 2) is the
tile's pixel at (0, 0), namely 0, where the tile itself holds 4). -/
theorem C1_equal_size_tile_not_returned :
    tileSurface tileA 2 3 ≠ tileA ∧
    (tileSurface tileA 2 3).pix 0 2 = 0 ∧ tileA.pix 0 2 = 4 := by
  refine ⟨?_, by decide, by decide⟩
  intro h
  have h2 := congrArg (fun s => s.pix 0 2) h
  simp only at h2
  have e1 : (tileSurface tileA 2 3).pix 0 2 = 0 := by decide
  have e2 : tileA.pix 0 2 = 4 := by decide
  rw [e1, e2] at h2
  exact absurd h2 (by decide)

/-- C2: the claim says the replication pass blits at x stepping by the
tile's width and y stepping by its height, allocating a new target-sized
surface whenever the target size differs from the tile's.  For the 2 by
3 tile `tileA` and a 10 by 10 target the code's offsets step x by 3 and
y by 2 (the swapped assignment at ui_image_tiled.py line 66), differing
from the claimed grid; and for the 3 by 2 target, whose size differs
from the tile's 2 by 3, the code returns the tile itself instead of
allocating a 3 by 2 surface. -/
theorem C2_grid_offsets_swapped :
    codeTileOffsets tileA 10 10 ≠ specTileOffsets tileA 10 10 ∧
    (3, 0) ∈ codeTileOffsets tileA 10 10 ∧
    (2, 0) ∉ codeTileOffsets tileA 10 10 ∧
    (2, 0) ∈ specTileOffsets tileA 10 10 ∧
    tileSurface tileA 3 2 = tileA ∧ tileA.size = (2, 3) := by
  exact ⟨by decide, by decide, by decide, by decide, rfl, rfl⟩

/-- Computation rule: an error value is an error. -/
lemma isErr_error {α : Type} (e : String) : isErr (α := α) (Except.error e) = true := rfl

/-- Computation rule: an ok value is not an error. -/
lemma isErr_ok {α : Type} (a : α) : isErr (Except.ok a) = false := rfl

/-- C3: the constructor of `ThreePanelApp` raises exactly when one of
the three rejection conditions holds: in fraction mode when a height
exceeds 1 or their sum does, in pixel mode when the sum exceeds the
window height, and in either mode when the resolved middle height is not
positive.  All three raises happen before any panel is built, so the
error value carries no panels. -/
theorem C3_raises_iff (W H top bottom : ℚ) (f : Bool) :
    isErr (ThreePanelApp.init W H top bottom f) = true ↔
      ((f = true ∧ (top > 1 ∨ bottom > 1 ∨ top + bottom > 1)) ∨
       (f = false ∧ top + bottom > H) ∨
       (H - (if f then H * top else top) - (if f then H * bottom else bottom) ≤ 0)) := by
  unfold ThreePanelApp.init
  by_cases h1 : f = true ∧ (top > 1 ∨ bottom > 1 ∨ top + bottom > 1)
  · rw [if_pos h1]
    exact iff_of_true rfl (Or.inl h1)
  · rw [if_neg h1]
    by_cases h2 : f = false ∧ top + bottom > H
    · rw [if_pos h2]
      exact iff_of_true rfl (Or.inr (Or.inl h2))
    · rw [if_neg h2]
      by_cases h3 :
          H - (if f then H * top else top) - (if f then H * bottom else bottom) ≤ 0
      · rw [if_pos h3]
        exact iff_of_true rfl (Or.inr (Or.inr h3))
      · rw [if_neg h3]
        refine iff_of_false (by simp [isErr]) ?_
        rintro (h | h | h)
        · exact h1 h
        · exact h2 h
        · exact h3 h

/-- C4 counterexample: the claim quantifies over every pair of
fractional heights with sum at most 1 and positive remaining space, but
for top 3/2 and bottom -3/5 on a window of height 800 the sum is 9/10
and the remaining space is 80, yet the constructor raises because the
top fraction alone exceeds 1. -/
theorem C4_counterexample :
    (3 : ℚ) / 2 + (-3 / 5) ≤ 1 ∧
    (800 : ℚ) - 800 * (3 / 2) - 800 * (-3 / 5) > 0 ∧
    isErr (ThreePanelApp.init 600 800 (3 / 2) (-3 / 5) true) = true := by
  refine ⟨by norm_num, by norm_num, ?_⟩
  rw [ThreePanelApp.init, if_pos (by norm_num)]
  rfl

/-- C4 (amended): for fractional heights with each of top and bottom at
most 1, sum at most 1 and strictly positive remaining space, the
constructor succeeds and the three computed panel heights sum exactly to
the window height; and with sum above 1 it always fails. -/
theorem C4_fraction_mode (W H top bottom : ℚ) :
    (top ≤ 1 → bottom ≤ 1 → top + bottom ≤ 1 → 0 < H - H * top - H * bottom →
      ThreePanelApp.init W H top bottom true =
        Except.ok
          { top_panel := ⟨0, 0, W, H * top⟩
            bottom_panel := ⟨0, -(H * bottom), W, H * bottom⟩
            middle_panel := ⟨0, 0, W, H - (H * top + H * bottom)⟩ } ∧
      H * top + H * bottom + (H - (H * top + H * bottom)) = H) ∧
    (top + bottom > 1 → isErr (ThreePanelApp.init W H top bottom true) = true) := by
  constructor
  · intro h1 h2 h3 h4
    refine ⟨?_, by ring⟩
    rw [ThreePanelApp.init, if_neg, if_neg, if_neg]
    · simp
    · simpa using by linarith
    · rintro ⟨h, -⟩
      exact absurd h (by simp)
    · rintro ⟨-, h | h | h⟩ <;> linarith
  · intro h
    rw [ThreePanelApp.init, if_pos ⟨rfl, Or.inr (Or.inr h)⟩]
    rfl

/-- C4 witness: a concrete success instance (window height 900, top 1/3,
bottom 1/6) and a concrete failure instance (top 2/3, bottom 2/3). -/
theorem C4_fraction_mode_witness :
    (ThreePanelApp.init 600 900 (1 / 3) (1 / 6) true =
      Except.ok
        { top_panel := ⟨0, 0, 600, 900 * (1 / 3)⟩
          bottom_panel := ⟨0, -(900 * (1 / 6)), 600, 900 * (1 / 6)⟩
          middle_panel := ⟨0, 0, 600, 900 - (900 * (1 / 3) + 900 * (1 / 6))⟩ } ∧
      (900 : ℚ) * (1 / 3) + 900 * (1 / 6) + (900 - (900 * (1 / 3) + 900 * (1 / 6))) = 900) ∧
    isErr (ThreePanelApp.init 600 900 (2 / 3) (2 / 3) true) = true :=
  ⟨(C4_fraction_mode 600 900 (1 / 3) (1 / 6)).1 (by norm_num) (by norm_num)
      (by norm_num) (by norm_num),
   (C4_fraction_mode 600 900 (2 / 3) (2 / 3)).2 (by norm_num)⟩

/-- C9: on a window of height 800 with fractional heights 0.25 and 0.10
the constructor succeeds with a top panel of height 200, a bottom panel
of height 80 and a middle panel of height 520, summing to 800. -/
theorem C9_example_heights :
    ThreePanelApp.init 600 800 (1 / 4) (1 / 10) true =
      Except.ok
        { top_panel := ⟨0, 0, 600, 200⟩
          bottom_panel := ⟨0, -80, 600, 80⟩
          middle_panel := ⟨0, 0, 600, 520⟩ } ∧
    (200 : ℚ) + 80 + 520 = 800 := by
  refine ⟨?_, by norm_num⟩
  norm_num [ThreePanelApp.init]

/-- C5: for a non-None tile strictly smaller than the target in both
directions, the installed image has exactly the target pixel size, both
at construction and after a `set_dimensions` resize, for any
size-preserving `convert_alpha` and `premul_alpha_surface` and any
`smoothscale` (never needed here, since the composed surface already has
the target size, so the unscaled branch is taken). -/
theorem C5_installed_image_size (conv premul : Surface → Surface)
    (ss : Surface → Nat → Nat → Surface)
    (hconv : ∀ s, (conv s).width = s.width ∧ (conv s).height = s.height)
    (hpremul : ∀ s, (premul s).width = s.width ∧ (premul s).height = s.height)
    (t : Surface) (W H : Nat) (hW : t.width < W) (hH : t.height < H)
    (wdg : TiledWidget) (hw : wdg.tile = some t) :
    ((UIImageTiled.init conv premul ss t W H).image.width = W ∧
      (UIImageTiled.init conv premul ss t W H).image.height = H) ∧
    (UIImageTiled.set_dimensions conv premul wdg W H).map
        (fun x => (x.image.width, x.image.height)) = some (W, H) := by
  have hcs := tileSurface_size_of_lt t W H hW hH
  have h1 := hconv (tileSurface t W H)
  have h2 := hpremul (conv (tileSurface t W H))
  have hisw : (premul (conv (tileSurface t W H))).width = W := by
    rw [h2.1, h1.1, hcs.1]
  have hish : (premul (conv (tileSurface t W H))).height = H := by
    rw [h2.2, h1.2, hcs.2]
  constructor
  · unfold UIImageTiled.init
    rw [if_neg]
    · exact ⟨hisw, hish⟩
    · rintro (h | h)
      · exact h hisw
      · exact h hish
  · obtain ⟨rW, rH, tl, oi, img⟩ := wdg
    simp only at hw
    subst hw
    unfold UIImageTiled.set_dimensions
    by_cases hg : W ≠ img.width ∨ H ≠ img.height
    · rw [if_pos hg]
      simp [create_tiled_surface, hisw, hish]
    · rw [if_neg hg]
      push_neg at hg
      simp [hg.1, hg.2]

/-- The tile used for the C5 witness, 1 by 1. -/
def tileUnit : Surface := ⟨1, 1, fun _ _ => 0⟩

/-- A concretely constructed widget used for the C5 witness. -/
def wdgC5 : TiledWidget := UIImageTiled.init id id scaleNearest tileUnit 5 5

/-- C5 witness: the size property at the concrete tile `tileUnit` and
target 2 by 3, with identity conversion and premultiplication and
nearest-neighbour scaling. -/
theorem C5_installed_image_size_witness :
    ((UIImageTiled.init id id scaleNearest tileUnit 2 3).image.width = 2 ∧
      (UIImageTiled.init id id scaleNearest tileUnit 2 3).image.height = 3) ∧
    (UIImageTiled.set_dimensions id id wdgC5 2 3).map
        (fun x => (x.image.width, x.image.height)) = some (2, 3) :=
  C5_installed_image_size id id scaleNearest (fun _ => ⟨rfl, rfl⟩)
    (fun _ => ⟨rfl, rfl⟩) tileUnit 2 3 (by decide) (by decide) wdgC5 rfl

/-- C6: the claim says a resize that changes the widget size installs
the same image a fresh construction at the new size would.  On the 2 by
3 tile `tileA`, a widget built at 6 by 6 and resized to 3 by 2 installs
a 2 by 3 image (the recomputed tiled surface — here the raw tile, via
the swapped size test — is installed without the rescale, which the
source comments out, contradicting the docstring of `set_dimensions`),
while a fresh construction at 3 by 2 installs a 3 by 2 image. -/
theorem C6_resize_skips_rescale :
    (UIImageTiled.set_dimensions id id
        (UIImageTiled.init id id scaleNearest tileA 6 6) 3 2).map
        (fun x => (x.image.width, x.image.height)) = some (2, 3) ∧
    ((UIImageTiled.init id id scaleNearest tileA 3 2).image.width,
      (UIImageTiled.init id id scaleNearest tileA 3 2).image.height) = (3, 2) := by
  exact ⟨by decide, by decide⟩

/-- C7: in one pass of the event loop, a QUIT event invokes the
shutdown hook, clears the running flag, and is neither passed to the
`handle_event` hook nor forwarded to the widget manager; any event other
than QUIT and WINDOWRESIZED goes to `handle_event` and is then forwarded
to the widget manager exactly when the running flag is still set. -/
theorem C7_event_dispatch (s : GuiState) (n : Nat) :
    processEvent s GEvent.quit =
      { s with shutdown_calls := s.shutdown_calls + 1, is_running := false } ∧
    processEvent s (GEvent.other n) =
      { s with handled := s.handled ++ [GEvent.other n],
               forwarded :=
                 if s.is_running then s.forwarded ++ [GEvent.other n]
                 else s.forwarded } := by
  obtain ⟨r, ws, bs, ur, sc, hd, fw⟩ := s
  cases r <;> exact ⟨rfl, rfl⟩

/-- One event-processing step preserves the size invariant. -/
lemma processEvent_sizeInv (s : GuiState) (e : GEvent)
    (hInv : GuiApp.sizeInv s) : GuiApp.sizeInv (processEvent s e) := by
  obtain ⟨r, ws, bs, ur, sc, hd, fw⟩ := s
  obtain ⟨h1, h2⟩ := hInv
  cases e with
  | quit => cases r <;> exact ⟨h1, h2⟩
  | windowResized w h => cases r <;> exact ⟨rfl, rfl⟩
  | other m => cases r <;> exact ⟨h1, h2⟩

/-- C8: the size invariant — background surface size and widget-manager
resolution both equal the root window size — holds after construction
and is preserved by every main-loop iteration, including those that
process window-resize events. -/
theorem C8_size_invariant (size : Nat × Nat) (s : GuiState) (evs : List GEvent)
    (hInv : GuiApp.sizeInv s) :
    GuiApp.sizeInv (GuiApp.init size) ∧ GuiApp.sizeInv (mainLoop s evs) := by
  refine ⟨⟨rfl, rfl⟩, ?_⟩
  induction evs generalizing s with
  | nil => exact hInv
  | cons e es ih => exact ih (processEvent s e) (processEvent_sizeInv s e hInv)

/-- C8 witness: the invariant at a concrete initial state and after a
main-loop iteration that processes a resize event. -/
theorem C8_size_invariant_witness :
    GuiApp.sizeInv (GuiApp.init (4, 5)) ∧
    GuiApp.sizeInv (mainLoop { GuiApp.init (4, 5) with is_running := true }
      [GEvent.windowResized 7 8, GEvent.other 0]) :=
  C8_size_invariant (4, 5) { GuiApp.init (4, 5) with is_running := true }
    [GEvent.windowResized 7 8, GEvent.other 0] ⟨rfl, rfl⟩

/-- C10: calling `run` with the running flag already set returns the
state unchanged without executing an iteration; with the flag clear it
sets the flag and iterates from there; and the iteration stops as soon
as the flag is clear, whatever batches remain. -/
theorem C10_run_guard (s : GuiState) (batches : List (List GEvent)) :
    (s.is_running = true → GuiApp.run s batches = s) ∧
    (s.is_running = false →
      GuiApp.run s batches = runFrom { s with is_running := true } batches) ∧
    (s.is_running = false → runFrom s batches = s) := by
  refine ⟨fun h => ?_, fun h => ?_, fun h => ?_⟩
  · simp [GuiApp.run, h]
  · simp [GuiApp.run, h]
  · cases batches with
    | nil => rfl
    | cons b bs => simp [runFrom, h]

/-- C10 witness: `run` on an already-running concrete state returns it
unchanged; on a fresh state it sets the flag and iterates; `runFrom` on
a stopped state consumes nothing. -/
theorem C10_run_guard_witness :
    GuiApp.run { GuiApp.init (4, 5) with is_running := true } [[GEvent.other 1]] =
      { GuiApp.init (4, 5) with is_running := true } ∧
    GuiApp.run (GuiApp.init (4, 5)) [[GEvent.quit]] =
      runFrom { GuiApp.init (4, 5) with is_running := true } [[GEvent.quit]] ∧
    runFrom (GuiApp.init (4, 5)) [[GEvent.other 2]] = GuiApp.init (4, 5) :=
  ⟨(C10_run_guard { GuiApp.init (4, 5) with is_running := true } [[GEvent.other 1]]).1 rfl,
   (C10_run_guard (GuiApp.init (4, 5)) [[GEvent.quit]]).2.1 rfl,
   (C10_run_guard (GuiApp.init (4, 5)) [[GEvent.other 2]]).2.2 rfl⟩
